import Mathlib

/-! Shallow embedding of the cache-backed summoner-resolution layer of OPGG.py:
`OPGG.search` (src/opgg/opgg.py, lines 404-527), the catalog and lookup helpers
of src/opgg/utils.py, and the data classes of src/opgg/champion.py.

The HTTP collaborators (`get_page_props`, the summary API behind
`OPGG.get_summoner`) are modelled as opaque function parameters of the search
environment, following the specification's treatment of them as external
collaborators returning structured payloads.  The `Cacher` class lives in
src/opgg/cacher.py, which is not among the sources; its operations are
modelled from the specification (each such definition is marked
`Modelled from the spec:`).  The outcome of `datetime.fromisoformat` on a
present `release_date` string is carried in the payload (see `ReleaseDate`),
since the ISO-8601 dialect the parser accepts depends on the Python version;
the one remaining machine-level abstraction (the truthiness of a non-empty
dict versus our structured `PageProps`) is noted where it occurs. -/

/-- Summoner candidate entry of `page_props["summoners"]` as read by
`OPGG.search` (opgg.py lines 492-508): fields `game_name`, `tagline` and
`summoner_id`, each read with `.get(..., "")`, so a missing key behaves as
the empty string. -/
structure Candidate where
  game_name : String
  tagline : String
  summoner_id : String
deriving DecidableEq

/-- Result of `OPGG.get_summoner`, restricted to the two fields that `search`
observes (`summoner.name` and `summoner.summoner_id`, opgg.py lines 512-513).
The `Summoner` class itself is declared in summoner.py, outside the sources;
`get_summoner` builds it from the summary-API response for the summoner id
currently stored on the `OPGG` object. -/
structure Summoner where
  name : String
  summoner_id : String
deriving DecidableEq

/-- Raw season payload entry of `page_props["seasonsById"].values()` as read by
`get_all_seasons` (utils.py lines 126-136); every field is read with `.get`. -/
structure RawSeason where
  id : Option Int
  value : Option Int
  display_value : Option Int
  split : Option Int
  is_preseason : Option Bool
deriving DecidableEq

/-- SeasonInfo record with exactly the constructor arguments passed at
utils.py lines 129-135 (the `SeasonInfo` class is declared in season.py,
outside the sources). -/
structure SeasonInfo where
  id : Option Int
  value : Option Int
  display_value : Option Int
  split : Option Int
  is_preseason : Option Bool
deriving DecidableEq

/-- Construction of a `SeasonInfo` from a raw season dict
(utils.py lines 129-135). -/
def mkSeasonInfo (s : RawSeason) : SeasonInfo :=
  { id := s.id, value := s.value, display_value := s.display_value,
    split := s.split, is_preseason := s.is_preseason }

/-- Passive class of champion.py (lines 9-18): fields name, description,
image_url, video_url. -/
structure Passive where
  name : Option String
  description : Option String
  image_url : Option String
  video_url : Option String
deriving DecidableEq

/-- Price class of champion.py (lines 104-109): fields currency, cost.
`get_all_champions` always passes a string for currency ("BE" or the raw
value when it mentions RP), so the field is a plain string. -/
structure Price where
  currency : String
  cost : Option Int
deriving DecidableEq

/-- Skin class of champion.py (lines 122-135): accepted constructor
parameters are id, name, centered_image, skin_video_url, prices, sales. -/
structure Skin where
  id : Option Int
  name : Option String
  centered_image : Option String
  skin_video_url : Option String
  prices : List Price
  sales : Option String
deriving DecidableEq

/-- Spell class of champion.py (lines 37-58): accepted constructor parameters
are key, name, description, max_rank, range_burn, cooldown_burn, cost_burn,
tooltip, image_url, video_url. -/
structure Spell where
  key : Option String
  name : Option String
  description : Option String
  max_rank : Option Int
  range_burn : List String
  cooldown_burn : List String
  cost_burn : List String
  tooltip : Option String
  image_url : Option String
  video_url : Option String
deriving DecidableEq

/-- Champion class of champion.py (lines 164-181): accepted constructor
parameters are id, key, name, image_url, evolve, passive, spells, skins. -/
structure Champion where
  id : Option Int
  key : Option String
  name : Option String
  image_url : Option String
  evolve : List String
  passive : Passive
  spells : List Spell
  skins : List Skin
deriving DecidableEq

/-- Raw price dict of a skin payload (utils.py lines 216-222). -/
structure RawPrice where
  currency : Option String
  cost : Option Int
deriving DecidableEq

/-- A present `release_date` string of a skin payload together with the
verdict of `datetime.fromisoformat` on it (utils.py line 232).  The exact
ISO-8601 dialect `fromisoformat` accepts depends on the Python version
running the code, so the model records per string whether the parser accepts
it (`isoOk`) instead of fixing one dialect; a rejected string makes the
argument evaluation raise `ValueError` before the `Skin(...)` call can raise
its `TypeError`. -/
structure ReleaseDate where
  text : String
  isoOk : Bool
deriving DecidableEq

/-- Raw skin dict of a champion payload (utils.py lines 213-235). -/
structure RawSkin where
  id : Option Int
  champion_id : Option Int
  name : Option String
  centered_image : Option String
  skin_video_url : Option String
  prices : List RawPrice
  release_date : Option ReleaseDate
  sales : Option String
deriving DecidableEq

/-- Raw spell dict of a champion payload (utils.py lines 237-252). -/
structure RawSpell where
  key : Option String
  name : Option String
  description : Option String
  max_rank : Option Int
  range_burn : List String
  cooldown_burn : List String
  cooldown_burn_float : List String
  cost_burn : List String
  tooltip : Option String
  image_url : Option String
  video_url : Option String
deriving DecidableEq

/-- Raw passive dict of a champion payload (utils.py lines 262-267). -/
structure RawPassive where
  name : Option String
  description : Option String
  image_url : Option String
  video_url : Option String
deriving DecidableEq

/-- Raw champion dict of `championsById` or of the direct champion API
(utils.py lines 208-271). -/
structure RawChampion where
  id : Option Int
  key : Option String
  name : Option String
  image_url : Option String
  evolve : List String
  partype : Option String
  passive : RawPassive
  spells : List RawSpell
  skins : List RawSkin
deriving DecidableEq

/-- Structured `page_props` payload returned by the multisearch scrape
(`get_page_props`, utils.py lines 68-96): the summoner candidates plus the
two opportunistic catalogs.  `seasonsById` values may be null (`if season:`
at utils.py line 127 skips falsy entries), hence the `Option`.  The
`JSONDecodeError` fallback to an empty dict is not modelled: the collaborator
is assumed to return a structured payload, as the specification assumes. -/
structure PageProps where
  summoners : List Candidate
  seasonsById : List (Option RawSeason)
  championsById : List RawChampion
deriving DecidableEq

/-- Errors raised by the embedded code.  The first three are the generic
`Exception`s of opgg.py lines 438, 503 and 525 (named after the roles the
specification gives them); the last three are the Python built-in exception
kinds that the utils.py code can raise. -/
inductive Err
  | malformedQuery (name : String)
  | multipleResults (name : String)
  | noResults
  | typeError (kw : String)
  | indexError
  | valueError
deriving DecidableEq

/-- Observable effects of one `OPGG.search` run, in program order: persistent
store reads/writes and network calls. -/
inductive Event
  | storeGetSummonerId (name : String)
  | storeInsertSummoner (name : String) (id : String)
  | storeGetAllSeasons
  | storeGetAllChamps
  | storeInsertAllSeasons (count : Nat)
  | storeInsertAllChamps (count : Nat)
  | netPageProps (names : List String)
  | netApiSummary (id : Option String)
deriving DecidableEq

/-- Modelled from the spec: the Persistent Store behind the `Cacher` class
(src/opgg/cacher.py is not among the sources).  Three namespaces:
summoner-name to identifier pairs, the champion catalog and the season
catalog (spec section 6). -/
structure Cacher where
  summoner_ids : List (String × String)
  champs : List Champion
  seasons : List SeasonInfo
deriving DecidableEq

/-- Modelled from the spec: `Cacher.get_summoner_id` /
`resolve_summoner_id(name)` — exact-match lookup against the store, `none`
on miss, no normalization (spec section 4.2). -/
def cacherGetSummonerId (store : Cacher) (name : String) : Option String :=
  (store.summoner_ids.find? (fun kv => kv.1 = name)).map (fun kv => kv.2)

/-- Modelled from the spec: the upsert underlying `Cacher.insert_summoner` /
`record_summoner_id` — writing an id for an existing name overwrites it,
otherwise the pair is appended (spec section 4.2). -/
def upsertId : List (String × String) → String → String → List (String × String)
  | [], name, id => [(name, id)]
  | kv :: rest, name, id =>
    if kv.1 = name then (name, id) :: rest
    else kv :: upsertId rest name id

/-- Modelled from the spec: `Cacher.insert_summoner` / `record_summoner_id`
(spec section 4.2, idempotent upsert). -/
def insert_summoner (store : Cacher) (name id : String) : Cacher :=
  { store with summoner_ids := upsertId store.summoner_ids name id }

/-- Modelled from the spec: `Cacher.insert_all_champs` /
`set_champion_catalog` — wholesale replace, empty input is a no-op
(spec section 4.2). -/
def insert_all_champs (store : Cacher) (items : List Champion) : Cacher :=
  match items with
  | [] => store
  | _ => { store with champs := items }

/-- Modelled from the spec: `Cacher.insert_all_seasons` /
`set_season_catalog` — wholesale replace, empty input is a no-op
(spec section 4.2). -/
def insert_all_seasons (store : Cacher) (items : List SeasonInfo) : Cacher :=
  match items with
  | [] => store
  | _ => { store with seasons := items }

/-- Python `"#" in name` (opgg.py lines 437, 492, 502), computed over the
character list so that it evaluates by kernel reduction. -/
def containsHash (s : String) : Bool := s.data.contains '#'

/-- Python `name.split("#")` over the character list: split at every '#',
keeping empty segments, exactly like `str.split` with an explicit
separator. -/
def splitHash : List Char → List (List Char)
  | [] => [[]]
  | a :: rest =>
    match splitHash rest with
    | [] => [[]]
    | h :: t => if a = '#' then [] :: h :: t else (a :: h) :: t

/-- The segments of `name.split("#")` as strings. -/
def splitHashStr (s : String) : List String := (splitHash s.data).map String.mk

/-- Python `str.strip()`: drop whitespace from both ends. -/
def pyStrip (s : String) : String :=
  String.mk (((s.data.dropWhile Char.isWhitespace).reverse.dropWhile
    Char.isWhitespace).reverse)

/-- First keyword of a call that the callee does not accept: Python raises
`TypeError: __init__() got an unexpected keyword argument ...` for it. -/
def kwUnexpected (params callKeys : List String) : Option String :=
  callKeys.find? (fun k => !(params.contains k))

/-- Constructor parameters of `Skin.__init__` (champion.py lines 123-129). -/
def skinParams : List String :=
  ["id", "name", "centered_image", "skin_video_url", "prices", "sales"]

/-- Keywords passed to `Skin(...)` at utils.py lines 225-234. -/
def skinCallKeys : List String :=
  ["id", "champion_id", "name", "centered_image", "skin_video_url", "prices",
   "release_date", "sales"]

/-- Constructor parameters of `Spell.__init__` (champion.py lines 38-48). -/
def spellParams : List String :=
  ["key", "name", "description", "max_rank", "range_burn", "cooldown_burn",
   "cost_burn", "tooltip", "image_url", "video_url"]

/-- Keywords passed to `Spell(...)` at utils.py lines 239-251. -/
def spellCallKeys : List String :=
  ["key", "name", "description", "max_rank", "range_burn", "cooldown_burn",
   "cooldown_burn_float", "cost_burn", "tooltip", "image_url", "video_url"]

/-- Constructor parameters of `Champion.__init__` (champion.py lines 165-173). -/
def championParams : List String :=
  ["id", "key", "name", "image_url", "evolve", "passive", "spells", "skins"]

/-- Keywords passed to `Champion(...)` at utils.py lines 255-270. -/
def championCallKeys : List String :=
  ["id", "key", "name", "image_url", "evolve", "partype", "passive", "spells",
   "skins"]

/-- Substring test for "RP" used at utils.py line 219
(`"RP" in price.get("currency", "")`). -/
def hasRP : List Char → Bool
  | [] => false
  | c :: rest => (c == 'R' && rest.head? == some 'P') || hasRP rest

/-- Price built at utils.py lines 217-221: currency is the raw value when it
mentions RP, else "BE"; the keywords passed (currency, cost) are exactly the
parameters `Price.__init__` accepts, so this call never fails. -/
def buildPrice (p : RawPrice) : Price :=
  { currency :=
      match p.currency with
      | some c => if hasRP c.toList then c else "BE"
      | none => "BE"
    cost := p.cost }

/-- Passive built at utils.py lines 262-267; the keywords passed are exactly
the parameters `Passive.__init__` accepts, so this call never fails. -/
def buildPassive (p : RawPassive) : Passive :=
  { name := p.name, description := p.description, image_url := p.image_url,
    video_url := p.video_url }

/-- Left-to-right effectful map, aborting at the first error, mirroring a
Python loop that appends per element and lets exceptions propagate. -/
def exceptMapList {α β : Type} (f : α → Except Err β) : List α → Except Err (List β)
  | [] => .ok []
  | a :: rest =>
    match f a with
    | .error e => .error e
    | .ok b =>
      match exceptMapList f rest with
      | .error e => .error e
      | .ok bs => .ok (b :: bs)

/-- The `Skin(...)` call at utils.py lines 225-234.  Python first evaluates
the keyword arguments left to right — for a present release_date this runs
`datetime.fromisoformat(skin["release_date"])`, raising `ValueError` when
the parser rejects the string — and only then raises `TypeError` at the call
itself, because it passes keywords (`champion_id`, `release_date`) that
`Skin.__init__` does not accept. -/
def buildSkin (s : RawSkin) : Except Err Skin :=
  match s.release_date with
  | some rd =>
    if rd.isoOk then
      match kwUnexpected skinParams skinCallKeys with
      | some kw => .error (.typeError kw)
      | none =>
        .ok { id := s.id, name := s.name, centered_image := s.centered_image,
              skin_video_url := s.skin_video_url,
              prices := s.prices.map buildPrice, sales := s.sales }
    else .error .valueError
  | none =>
    match kwUnexpected skinParams skinCallKeys with
    | some kw => .error (.typeError kw)
    | none =>
      .ok { id := s.id, name := s.name, centered_image := s.centered_image,
            skin_video_url := s.skin_video_url,
            prices := s.prices.map buildPrice, sales := s.sales }

/-- Error that the `Skin(...)` call raises for a given raw skin:
`ValueError` when its present release_date is rejected by the parser
(argument evaluation precedes the call), else the unexpected-keyword
`TypeError`. -/
def skinCallErr (s : RawSkin) : Err :=
  match s.release_date with
  | some rd => if rd.isoOk then .typeError "champion_id" else .valueError
  | none => .typeError "champion_id"

/-- The `Spell(...)` call at utils.py lines 239-251; passes the keyword
`cooldown_burn_float`, which `Spell.__init__` does not accept. -/
def buildSpell (s : RawSpell) : Except Err Spell :=
  match kwUnexpected spellParams spellCallKeys with
  | some kw => .error (.typeError kw)
  | none =>
    .ok { key := s.key, name := s.name, description := s.description,
          max_rank := s.max_rank, range_burn := s.range_burn,
          cooldown_burn := s.cooldown_burn, cost_burn := s.cost_burn,
          tooltip := s.tooltip, image_url := s.image_url,
          video_url := s.video_url }

/-- Per-champion body of the loop at utils.py lines 208-271: build the skins,
then the spells, then call `Champion(...)` (which passes the keyword
`partype` that `Champion.__init__` does not accept). -/
def buildChampion (c : RawChampion) : Except Err Champion :=
  match exceptMapList buildSkin c.skins with
  | .error e => .error e
  | .ok skins =>
    match exceptMapList buildSpell c.spells with
    | .error e => .error e
    | .ok spells =>
      match kwUnexpected championParams championCallKeys with
      | some kw => .error (.typeError kw)
      | none =>
        .ok { id := c.id, key := c.key, name := c.name,
              image_url := c.image_url, evolve := c.evolve,
              passive := buildPassive c.passive, spells := spells,
              skins := skins }

/-- The champion-building loop of `get_all_champions`
(utils.py lines 208-273) over a raw payload. -/
def buildChampions (raw : List RawChampion) : Except Err (List Champion) :=
  exceptMapList buildChampion raw

/-- `get_all_champions` (utils.py lines 175-273).  With a truthy `page_props`
the raw data is `page_props["championsById"].values()`; otherwise the cache is
consulted first and, on a miss, the direct champion API is fetched (`apiRaw`
stands for the decoded response; a `JSONDecodeError` gives `[]`). -/
def get_all_champions (store : Cacher) (apiRaw : List RawChampion)
    (page_props : Option (List RawChampion)) : Except Err (List Champion) :=
  match page_props with
  | some raw => buildChampions raw
  | none =>
    if store.champs.isEmpty then buildChampions apiRaw
    else .ok store.champs

/-- The season-building loop of `get_all_seasons` (utils.py lines 126-136):
falsy entries of `seasonsById` are skipped. -/
def buildSeasons (raw : List (Option RawSeason)) : List SeasonInfo :=
  raw.filterMap (fun os => os.map mkSeasonInfo)

/-- `get_all_seasons` (utils.py lines 99-138): the cache is consulted first;
on a miss the seasons are built from the given `page_props`, or from a fresh
`get_page_props()` scrape (`fetched` stands for its `seasonsById`) when none
was passed. -/
def get_all_seasons (store : Cacher) (page_props : Option (List (Option RawSeason)))
    (fetched : List (Option RawSeason)) : List SeasonInfo :=
  if store.seasons.isEmpty then
    buildSeasons (match page_props with | some pp => pp | none => fetched)
  else store.seasons

/-- Catalog phase of `OPGG.search` (opgg.py lines 464-479): read both cached
catalogs; for each empty one, build it from the page props (seasons via
`get_all_seasons(page_props)`, champions via `get_all_champions(page_props)`)
and insert the result.  A `TypeError` from the champion build propagates.
Returns the error if any, the updated store, and the emitted events. -/
def catalogPhase (store : Cacher) (pp : PageProps) :
    Option Err × Cacher × List Event :=
  let readEvs := [Event.storeGetAllSeasons, Event.storeGetAllChamps]
  let seasonStep : Cacher × List Event :=
    if store.seasons.isEmpty then
      let ss := get_all_seasons store (some pp.seasonsById) []
      (insert_all_seasons store ss,
       [Event.storeGetAllSeasons, Event.storeInsertAllSeasons ss.length])
    else (store, [])
  match seasonStep with
  | (store1, sevs) =>
    if store.champs.isEmpty then
      match get_all_champions store [] (some pp.championsById) with
      | .error e => (some e, store1, readEvs ++ sevs)
      | .ok cs =>
        (none, insert_all_champs store1 cs,
         readEvs ++ sevs ++ [Event.storeInsertAllChamps cs.length])
    else (none, store1, readEvs ++ sevs)

/-- Validation-and-partition loop of `OPGG.search` (opgg.py lines 436-447):
each name must contain the separator `#` or the whole call raises; otherwise
the cache is consulted and the name sorted into cached ids (truthy hit) or
uncached names, preserving input order.  A cached empty-string id is falsy in
Python and therefore counts as a miss. -/
def validatePartition (store : Cacher) :
    List String → Except Err (List String × List String) × List Event
  | [] => (.ok ([], []), [])
  | name :: rest =>
    if containsHash name then
      let hit : Option String :=
        match cacherGetSummonerId store name with
        | some id => if id = "" then none else some id
        | none => none
      match validatePartition store rest with
      | (.error e, evs) => (.error e, Event.storeGetSummonerId name :: evs)
      | (.ok (cs, us), evs) =>
        match hit with
        | some id => (.ok (id :: cs, us), Event.storeGetSummonerId name :: evs)
        | none => (.ok (cs, name :: us), Event.storeGetSummonerId name :: evs)
    else (.error (.malformedQuery name), [])

/-- Per-name summoner-id update of the main loop (opgg.py lines 492-508):
with more than one candidate and a `#` in the query, split the query and take
the first exact (trimmed name, tag) match, keeping the current id when none
matches; with more than one candidate and no `#`, raise; with exactly one
candidate, take it unconditionally; with none, keep the current id.  The
two-way unpack of `split("#")` raises `ValueError` unless it yields exactly
two parts. -/
def resolveId (cands : List Candidate) (name : String) (cur : Option String) :
    Except Err (Option String) :=
  if cands.length > 1 then
    if containsHash name then
      match splitHashStr name with
      | [only_name, only_region] =>
        match cands.find? (fun s =>
            s.game_name = pyStrip only_name && s.tagline = pyStrip only_region) with
        | some s => .ok (some s.summoner_id)
        | none => .ok cur
      | _ => .error .valueError
    else .error (.multipleResults name)
  else
    match cands with
    | [c] => .ok (some c.summoner_id)
    | _ => .ok cur

/-- Main loop of `OPGG.search` (opgg.py lines 489-513): iterate over ALL
input names (cache hits included), update the current summoner id from the
candidates, call the summary API for the current id, append the result, and
cache the returned (name, id) pair.  Returns the error if any, the results,
the updated store, the final current id, and the emitted events. -/
def mainLoop (api : Option String → Summoner) (cands : List Candidate) :
    Cacher → Option String → List String →
    Option Err × List Summoner × Cacher × Option String × List Event
  | store, cur, [] => (none, [], store, cur, [])
  | store, cur, name :: rest =>
    match resolveId cands name cur with
    | .error e => (some e, [], store, cur, [])
    | .ok cur1 =>
      let s := api cur1
      let store1 := insert_summoner store s.name s.summoner_id
      match mainLoop api cands store1 cur1 rest with
      | (err, ss, store2, cur2, evs) =>
        (err, s :: ss, store2, cur2,
         Event.netApiSummary cur1 :: Event.storeInsertSummoner s.name s.summoner_id :: evs)

/-- Cached-ids loop of `OPGG.search` (opgg.py lines 516-520): each cached id
goes straight to the summary API and the result is appended; nothing is
written back. -/
def cachedLoop (api : Option String → Summoner) :
    List String → List Summoner × List Event
  | [] => ([], [])
  | id :: rest =>
    match cachedLoop api rest with
    | (ss, evs) =>
      (api (some id) :: ss, Event.netApiSummary (some id) :: evs)

/-- External collaborators of `OPGG.search`: the multisearch scrape
(`get_page_props`) and the summary API behind `OPGG.get_summoner`, as a
function of the summoner id current at call time. -/
structure SearchEnv where
  fetchProps : List String → PageProps
  api : Option String → Summoner

/-- Body of `OPGG.search` (opgg.py lines 404-527) up to, but not including,
the final empty-check and single/list unwrap: validate and partition the
names, scrape page props for the uncached ones, refresh the catalogs, run the
main loop over all names, then the cached-ids loop, concatenating the
results.  `cur` is the summoner id stored on the `OPGG` object when the call
starts.  Returns the result (or error), the final store, and the event
trace. -/
def searchRun (env : SearchEnv) (store : Cacher) (cur : Option String)
    (names : List String) : Except Err (List Summoner) × Cacher × List Event :=
  match validatePartition store names with
  | (.error e, evs) => (.error e, store, evs)
  | (.ok (cachedIds, uncached), evs0) =>
    let pp := env.fetchProps uncached
    let evs1 := evs0 ++ [Event.netPageProps uncached]
    match catalogPhase store pp with
    | (some e, store1, evs2) => (.error e, store1, evs1 ++ evs2)
    | (none, store1, evs2) =>
      match mainLoop env.api pp.summoners store1 cur names with
      | (some e, _, store2, _, evs3) => (.error e, store2, evs1 ++ evs2 ++ evs3)
      | (none, ss, store2, _, evs3) =>
        match cachedLoop env.api cachedIds with
        | (ss2, evs4) =>
          (.ok (ss ++ ss2), store2, evs1 ++ evs2 ++ evs3 ++ evs4)

/-- Shape of the value `OPGG.search` returns (opgg.py line 527): the bare
summoner when exactly one was built, else the list. -/
inductive SearchOut
  | single (s : Summoner)
  | multiple (ss : List Summoner)
deriving DecidableEq

/-- Full `OPGG.search`: the run above followed by the empty check of
opgg.py lines 524-525 and the single/list unwrap of line 527. -/
def search (env : SearchEnv) (store : Cacher) (cur : Option String)
    (names : List String) : Except Err SearchOut × Cacher × List Event :=
  match searchRun env store cur names with
  | (.error e, st, ev) => (.error e, st, ev)
  | (.ok [], st, ev) => (.error .noResults, st, ev)
  | (.ok [s], st, ev) => (.ok (.single s), st, ev)
  | (.ok ss, st, ev) => (.ok (.multiple ss), st, ev)

/-- Enumeration of the `By` values used in utils.py (`By.ID`, `By.KEY`,
`By.NAME`, `By.COST`); the `By` enum itself is declared in params.py,
outside the sources. -/
inductive By
  | id
  | key
  | name
  | cost
deriving DecidableEq

/-- Python value passed as the `value` argument of `get_champion_by` /
`get_season_by`: an int, a string, or a list of such. -/
inductive PyVal
  | vInt (n : Int)
  | vStr (s : String)
  | vList (xs : List PyVal)

/-- Python `int(value)`: identity on ints, parse for strings (`ValueError`
when unparsable), `TypeError` for lists. -/
def pyInt : PyVal → Except Err Int
  | .vInt n => .ok n
  | .vStr s =>
    match s.toInt? with
    | some n => .ok n
    | none => .error .valueError
  | .vList _ => .error .valueError

/-- Python `==` between an optional int field and a value: int equals int,
everything else (None, string, list) compares unequal without error. -/
def pyEqOptInt (o : Option Int) : PyVal → Bool
  | .vInt m => o == some m
  | _ => false

/-- Python `==` between an optional string field and a value. -/
def pyEqOptStr (o : Option String) : PyVal → Bool
  | .vStr t => o == some t
  | _ => false

/-- Python `price.cost in value` (utils.py line 343): membership when value
is a list, `TypeError` otherwise (an int or string is not a container of
ints). -/
def pyCostIn (cost : Option Int) : PyVal → Except Err Bool
  | .vList xs =>
    .ok (xs.any (fun x =>
      match x, cost with
      | .vInt n, some m => n == m
      | _, _ => false))
  | _ => .error (.typeError "cost containment on a non-list value")

/-- Result-set loop of `get_season_by` (utils.py lines 155-170): only
`By.ID` populates the set; a list value appends the season once per matching
id, a scalar is converted with `int(...)` inside the loop body (so an empty
catalog never evaluates it). -/
def computeSeasonSet (all_seasons : List SeasonInfo) (b : By) (v : PyVal) :
    Except Err (List SeasonInfo) :=
  match b with
  | .id =>
    match v with
    | .vList xs =>
      .ok (List.flatten (all_seasons.map (fun s =>
        xs.filterMap (fun x => if pyEqOptInt s.id x then some s else none))))
    | x =>
      match all_seasons with
      | [] => .ok []
      | _ =>
        match pyInt x with
        | .error e => .error e
        | .ok n => .ok (all_seasons.filter (fun s => s.id == some n))
  | _ => .ok []

/-- Matches of one price list against the cost query (utils.py lines
342-344): the currency comparison short-circuits, so the membership test
(and its possible `TypeError`) only runs for prices in the right currency.
Counts how many prices match, since the champion is appended once per
match. -/
def costMatches (curr : String) (v : PyVal) : List Price → Except Err Nat
  | [] => .ok 0
  | p :: rest =>
    match (if curr.toUpper = p.currency then pyCostIn p.cost v else .ok false) with
    | .error e => .error e
    | .ok b =>
      match costMatches curr v rest with
      | .error e => .error e
      | .ok k => .ok ((if b then 1 else 0) + k)

/-- Cost branch of `get_champion_by` (utils.py lines 339-344):
`champ.skins[0]` raises `IndexError` on a skinless champion; a champion with
an empty (falsy) price list on its first skin is skipped; otherwise the
champion is appended once per matching price. -/
def costLoop (curr : String) (v : PyVal) : List Champion → Except Err (List Champion)
  | [] => .ok []
  | ch :: rest =>
    match ch.skins with
    | [] => .error .indexError
    | s0 :: _ =>
      match s0.prices with
      | [] => costLoop curr v rest
      | _ =>
        match costMatches curr v s0.prices with
        | .error e => .error e
        | .ok k =>
          match costLoop curr v rest with
          | .error e => .error e
          | .ok tail => .ok (List.replicate k ch ++ tail)

/-- Result-set computation of `get_champion_by` (utils.py lines 303-344)
over a champion list: the ID branch converts a scalar with `int(...)` inside
the loop, the KEY and NAME branches compare directly, list values append
once per matching element, and the COST branch is `costLoop`. -/
def computeChampSet (all_champs : List Champion) (b : By) (v : PyVal)
    (curr : String) : Except Err (List Champion) :=
  match b with
  | .id =>
    match v with
    | .vList xs =>
      .ok (List.flatten (all_champs.map (fun c =>
        xs.filterMap (fun x => if pyEqOptInt c.id x then some c else none))))
    | x =>
      match all_champs with
      | [] => .ok []
      | _ =>
        match pyInt x with
        | .error e => .error e
        | .ok n => .ok (all_champs.filter (fun c => c.id == some n))
  | .key =>
    match v with
    | .vList xs =>
      .ok (List.flatten (all_champs.map (fun c =>
        xs.filterMap (fun x => if pyEqOptStr c.key x then some c else none))))
    | x => .ok (all_champs.filter (fun c => pyEqOptStr c.key x))
  | .name =>
    match v with
    | .vList xs =>
      .ok (List.flatten (all_champs.map (fun c =>
        xs.filterMap (fun x => if pyEqOptStr c.name x then some c else none))))
    | x => .ok (all_champs.filter (fun c => pyEqOptStr c.name x))
  | .cost => costLoop curr v all_champs

/-- Return shape of a single or list result. -/
inductive PyRes (α : Type)
  | one (x : α)
  | many (xs : List α)
deriving DecidableEq

/-- The shared return line of `get_champion_by` (utils.py line 347) and
`get_season_by` (utils.py line 172): the whole list when it holds more than
one element, else its first element — `IndexError` when it is empty. -/
def shapeResult {α : Type} (rs : List α) : Except Err (PyRes α) :=
  if rs.length > 1 then .ok (.many rs)
  else
    match rs with
    | [] => .error .indexError
    | x :: _ => .ok (.one x)

/-- Selection and shaping of `get_season_by` over a season catalog. -/
def seasonSelect (all_seasons : List SeasonInfo) (b : By) (v : PyVal) :
    Except Err (PyRes SeasonInfo) :=
  match computeSeasonSet all_seasons b v with
  | .error e => .error e
  | .ok rs => shapeResult rs

/-- Selection and shaping of `get_champion_by` over a champion list. -/
def champSelect (all_champs : List Champion) (b : By) (v : PyVal)
    (curr : String) : Except Err (PyRes Champion) :=
  match computeChampSet all_champs b v curr with
  | .error e => .error e
  | .ok rs => shapeResult rs

/-- `get_season_by` (utils.py lines 141-172): the catalog comes from
`get_all_seasons()` with no page props (`fetched` is the scrape fallback). -/
def get_season_by (store : Cacher) (fetched : List (Option RawSeason))
    (b : By) (v : PyVal) : Except Err (PyRes SeasonInfo) :=
  seasonSelect (get_all_seasons store none fetched) b v

/-- `get_champion_by` (utils.py lines 276-347): the catalog comes from
`get_all_champions`, with the optional page-props of the `kwargs` path. -/
def get_champion_by (store : Cacher) (apiRaw : List RawChampion)
    (page_props : Option (List RawChampion)) (b : By) (v : PyVal)
    (curr : String) : Except Err (PyRes Champion) :=
  match get_all_champions store apiRaw page_props with
  | .error e => .error e
  | .ok all_champs => champSelect all_champs b v curr

/-- Truthiness of the cached id for a name (`if cached_id:` at
opgg.py line 443): a present, non-empty id string. -/
def truthyHit (store : Cacher) (name : String) : Bool :=
  match cacherGetSummonerId store name with
  | some id => if id = "" then false else true
  | none => false

/-- Cached ids collected by the partition loop, in input order. -/
def cachedIdsOf (store : Cacher) (names : List String) : List String :=
  names.filterMap (fun n =>
    match cacherGetSummonerId store n with
    | some id => if id = "" then none else some id
    | none => none)

/-- Uncached names collected by the partition loop, in input order: exactly
the names whose cache lookup is falsy. -/
def uncachedOf (store : Cacher) (names : List String) : List String :=
  names.filter (fun n => !truthyHit store n)

/-- Summary-API stub used by the concrete scenarios: echoes the id it was
called with. -/
def apiStub : Option String → Summoner :=
  fun o => { name := o.getD "none", summoner_id := o.getD "none" }

/-- Page props with no candidates and no catalogs. -/
def emptyPP : PageProps :=
  { summoners := [], seasonsById := [], championsById := [] }

/-- The empty persistent store. -/
def emptyCacher : Cacher := { summoner_ids := [], champs := [], seasons := [] }

/-- Environment whose scrape returns zero candidates and whose summary API
returns a fixed summoner. -/
def envZero : SearchEnv :=
  { fetchProps := fun _ => emptyPP, api := fun _ => ⟨"X", "xid"⟩ }

/-- Candidate "a" with tag "1" and id "aid". -/
def candA : Candidate := ⟨"a", "1", "aid"⟩

/-- Candidate "c" with tag "3" and id "cid". -/
def candC : Candidate := ⟨"c", "3", "cid"⟩

/-- Environment whose scrape returns the candidates for "a#1" and "c#3". -/
def envAC : SearchEnv :=
  { fetchProps := fun _ =>
      { summoners := [candA, candC], seasonsById := [], championsById := [] }
  , api := apiStub }

/-- Store holding a cached id for "b#2" only. -/
def storeB : Cacher :=
  { summoner_ids := [("b#2", "bid")], champs := [], seasons := [] }

/-- Page props of the disambiguation example of the specification: two
candidates named "abc", one tagged NA1 with id "1", one tagged EUW with
id "2". -/
def ppAbc2 : PageProps :=
  { summoners := [⟨"abc", "NA1", "1"⟩, ⟨"abc", "EUW", "2"⟩],
    seasonsById := [], championsById := [] }

/-- Environment whose scrape returns the two "abc" candidates. -/
def envAbc2 : SearchEnv :=
  { fetchProps := fun _ => ppAbc2, api := apiStub }

/-- Environment whose scrape returns a single candidate named "abc". -/
def envAbc1 : SearchEnv :=
  { fetchProps := fun _ =>
      { summoners := [⟨"abc", "NA1", "1"⟩], seasonsById := [], championsById := [] }
  , api := apiStub }

/-- Store whose cached id for "a#1" is the empty string (present in the
store, falsy to the partition loop). -/
def storeEmptyId : Cacher :=
  { summoner_ids := [("a#1", "")], champs := [], seasons := [] }

/-- Store with both catalogs populated and no summoner ids. -/
def storeCat : Cacher :=
  { summoner_ids := [],
    champs := [{ id := some 1, key := some "Anivia", name := some "Anivia",
                 image_url := none, evolve := [],
                 passive := ⟨none, none, none, none⟩, spells := [], skins := [] }],
    seasons := [{ id := some 27, value := some 27, display_value := some 2023,
                  split := none, is_preseason := some false }] }

/-- Concrete raw champion payload entry with no skins and no spells. -/
def sampleRawChampion : RawChampion :=
  { id := some 1, key := some "Anivia", name := some "Anivia",
    image_url := none, evolve := [], partype := some "Mana",
    passive := ⟨none, none, none, none⟩, spells := [], skins := [] }

/-- Concrete raw champion payload whose first skin carries a present
release_date string that `datetime.fromisoformat` rejects (no Python version
parses "not-a-date"). -/
def badDateRawChampion : RawChampion :=
  { id := some 2, key := some "Annie", name := some "Annie",
    image_url := none, evolve := [], partype := some "Mana",
    passive := ⟨none, none, none, none⟩, spells := [],
    skins := [{ id := some 1, champion_id := some 2, name := some "base",
                centered_image := none, skin_video_url := none, prices := [],
                release_date := some ⟨"not-a-date", false⟩, sales := none }] }

/-- Concrete champion record used by the witnesses. -/
def sampleChampion : Champion :=
  { id := some 1, key := some "Anivia", name := some "Anivia",
    image_url := none, evolve := [], passive := ⟨none, none, none, none⟩,
    spells := [], skins := [] }

/-- Concrete season record used by the witnesses. -/
def sampleSeason : SeasonInfo :=
  { id := some 27, value := some 27, display_value := some 2023,
    split := none, is_preseason := some false }

/-! Lemmas about the partition loop. -/

/-- Under an all-well-formed batch the partition loop succeeds, yielding the
cached ids and uncached names in input order and one store read per name. -/
theorem validatePartition_closed (store : Cacher) (names : List String)
    (h : ∀ n ∈ names, containsHash n = true) :
    validatePartition store names =
      (.ok (cachedIdsOf store names, uncachedOf store names),
       names.map Event.storeGetSummonerId) := by
  induction names with
  | nil => simp [validatePartition, cachedIdsOf, uncachedOf]
  | cons n rest ih =>
    have hn : containsHash n = true := h n (by simp)
    have hrest : ∀ m ∈ rest, containsHash m = true := fun m hm => h m (by simp [hm])
    simp only [validatePartition, hn, if_true, ih hrest]
    cases hc : cacherGetSummonerId store n with
    | none =>
      simp [cachedIdsOf, uncachedOf, truthyHit, hc, List.filter_cons]
    | some id =>
      by_cases hid : id = "" <;>
        simp [cachedIdsOf, uncachedOf, truthyHit, hc, hid, List.filter_cons]

/-- A batch containing a name without the separator makes the partition loop
raise on the first such name, after nothing but store reads for the earlier,
well-formed names. -/
theorem validatePartition_error_of_malformed (store : Cacher) (names : List String)
    (h : ∃ n ∈ names, containsHash n = false) :
    ∃ bad evs, validatePartition store names = (.error (.malformedQuery bad), evs)
      ∧ containsHash bad = false
      ∧ ∀ e ∈ evs, ∃ m, e = Event.storeGetSummonerId m := by
  induction names with
  | nil => simp at h
  | cons n rest ih =>
    by_cases hn : containsHash n = true
    · have hrest : ∃ m ∈ rest, containsHash m = false := by
        rcases h with ⟨m, hm, hmf⟩
        rcases List.mem_cons.mp hm with hmn | hmr
        · exact absurd hn (by simp [← hmn, hmf])
        · exact ⟨m, hmr, hmf⟩
      rcases ih hrest with ⟨bad, evs, heq, hbad, hevs⟩
      refine ⟨bad, Event.storeGetSummonerId n :: evs, ?_, hbad, ?_⟩
      · simp only [validatePartition, hn, if_true, heq]
      · intro e he
        rcases List.mem_cons.mp he with he1 | he2
        · exact ⟨n, he1⟩
        · exact hevs e he2
    · have hnf : containsHash n = false := by
        cases hb : containsHash n
        · rfl
        · exact absurd hb hn
      exact ⟨n, [], by simp [validatePartition, hnf], hnf, by simp⟩

/-- A successful partition(run) implies every name contains the separator. -/
theorem validatePartition_ok_hash (store : Cacher) (names : List String)
    (p : List String × List String) (evs : List Event)
    (h : validatePartition store names = (.ok p, evs)) :
    ∀ n ∈ names, containsHash n = true := by
  intro n hn
  cases hb : containsHash n
  · rcases validatePartition_error_of_malformed store names ⟨n, hn, hb⟩ with
      ⟨bad, evs', heq, _, _⟩
    rw [heq] at h
    simp at h
  · rfl

/-! Lemmas about the main loop, the cached loop and the champion build. -/

/-- With zero candidates the per-name resolution keeps the current id. -/
theorem resolveId_nil (name : String) (cur : Option String) :
    resolveId [] name cur = .ok cur := rfl

/-- With zero candidates the main loop calls the summary API once per input
name with the unchanged current id, caching each response. -/
theorem mainLoop_nil_cands (api : Option String → Summoner)
    (names : List String) (store : Cacher) (cur : Option String) :
    mainLoop api [] store cur names =
      (none, names.map (fun _ => api cur),
       names.foldl (fun st _ =>
         insert_summoner st (api cur).name (api cur).summoner_id) store,
       cur,
       List.flatten (names.map (fun _ =>
         [Event.netApiSummary cur,
          Event.storeInsertSummoner (api cur).name (api cur).summoner_id]))) := by
  induction names generalizing store with
  | nil => simp [mainLoop]
  | cons n rest ih => simp [mainLoop, resolveId_nil, ih]

/-- A successful main loop yields exactly one result per input name. -/
theorem mainLoop_ok_length (api : Option String → Summoner)
    (cands : List Candidate) (names : List String) (store : Cacher)
    (cur : Option String) (ss : List Summoner) (store2 : Cacher)
    (cur2 : Option String) (evs : List Event)
    (h : mainLoop api cands store cur names = (none, ss, store2, cur2, evs)) :
    ss.length = names.length := by
  induction names generalizing store cur ss store2 cur2 evs with
  | nil =>
    simp only [mainLoop] at h
    cases h
    rfl
  | cons n rest ih =>
    simp only [mainLoop] at h
    cases hr : resolveId cands n cur with
    | error e => rw [hr] at h; simp at h
    | ok cur1 =>
      rw [hr] at h
      simp only at h
      rcases hm : mainLoop api cands
          (insert_summoner store (api cur1).name (api cur1).summoner_id) cur1 rest with
        ⟨err, ss', st', c', evs'⟩
      rw [hm] at h
      cases h
      simp [ih _ _ _ _ _ _ hm]

/-- The per-name resolution of a name containing the separator never raises
the multiple-results error. -/
theorem resolveId_no_multipleResults (cands : List Candidate) (name : String)
    (cur : Option String) (hn : containsHash name = true) (m : String) :
    resolveId cands name cur ≠ .error (.multipleResults m) := by
  unfold resolveId
  by_cases hl : cands.length > 1
  · simp only [hl, if_true, hn, if_true]
    rcases splitHashStr name with _ | ⟨a, _ | ⟨b, _ | _⟩⟩ <;> simp
    cases cands.find? (fun s =>
        s.game_name = pyStrip a && s.tagline = pyStrip b) <;> simp
  · simp only [hl, if_false]
    rcases cands with _ | ⟨c, _ | _⟩ <;> simp

/-- Over a batch of names that all contain the separator the main loop never
raises the multiple-results error. -/
theorem mainLoop_no_multipleResults (api : Option String → Summoner)
    (cands : List Candidate) (names : List String) (store : Cacher)
    (cur : Option String) (h : ∀ n ∈ names, containsHash n = true) (m : String) :
    (mainLoop api cands store cur names).1 ≠ some (.multipleResults m) := by
  induction names generalizing store cur with
  | nil => simp [mainLoop]
  | cons n rest ih =>
    simp only [mainLoop]
    cases hr : resolveId cands n cur with
    | error e =>
      simp only
      intro hc
      cases hc
      exact resolveId_no_multipleResults cands n cur (h n (by simp)) m hr
    | ok cur1 =>
      simp only
      rcases hm : mainLoop api cands
          (insert_summoner store (api cur1).name (api cur1).summoner_id) cur1 rest with
        ⟨err, ss', st', c', evs'⟩
      simp only
      have := ih (insert_summoner store (api cur1).name (api cur1).summoner_id)
        cur1 (fun x hx => h x (by simp [hx]))
      rw [hm] at this
      simpa using this

/-- The cached-ids loop calls the summary API once per cached id, in order,
and performs no store writes. -/
theorem cachedLoop_closed (api : Option String → Summoner) (ids : List String) :
    cachedLoop api ids =
      (ids.map (fun i => api (some i)),
       ids.map (fun i => Event.netApiSummary (some i))) := by
  induction ids with
  | nil => rfl
  | cons i rest ih => simp [cachedLoop, ih]

/-- Every `Skin(...)` call of the champion build raises: `ValueError` when
its present release_date is rejected by the parser, else the unexpected
keyword `champion_id`. -/
theorem buildSkin_eq (s : RawSkin) :
    buildSkin s = .error (skinCallErr s) := by
  unfold buildSkin skinCallErr
  rcases s.release_date with _ | rd
  · rfl
  · cases h : rd.isoOk
    · simp [h]
    · simp only [h, if_true]
      rfl

/-- Every `Spell(...)` call of the champion build raises the unexpected
keyword `cooldown_burn_float`. -/
theorem buildSpell_eq (s : RawSpell) :
    buildSpell s = .error (.typeError "cooldown_burn_float") := rfl

/-- Every per-champion build step raises: the first skin's error
(`ValueError` for a rejected release_date, else the `champion_id`
`TypeError`), else the first spell's `cooldown_burn_float` `TypeError`,
else the `partype` `TypeError` of the `Champion(...)` call itself. -/
theorem buildChampion_eq (c : RawChampion) :
    buildChampion c = .error
      (match c.skins with
       | sk :: _ => skinCallErr sk
       | [] =>
         match c.spells with
         | _ :: _ => .typeError "cooldown_burn_float"
         | [] => .typeError "partype") := by
  unfold buildChampion
  rcases c.skins with _ | ⟨sk, sks⟩
  · rcases c.spells with _ | ⟨sp, sps⟩
    · rfl
    · simp [exceptMapList, buildSpell_eq]
  · simp [exceptMapList, buildSkin_eq]

/-- Partition-loop failures are always the malformed-query exception. -/
theorem validatePartition_error_form (store : Cacher) (names : List String)
    (e : Err) (evs : List Event)
    (h : validatePartition store names = (.error e, evs)) :
    ∃ bad, e = .malformedQuery bad := by
  induction names generalizing evs with
  | nil => simp [validatePartition] at h
  | cons n rest ih =>
    by_cases hn : containsHash n = true
    · rcases hrec : validatePartition store rest with ⟨res, evs'⟩
      simp only [validatePartition, hn, if_true, hrec] at h
      cases res with
      | error e' =>
        simp only at h
        cases h
        exact ih _ hrec
      | ok p =>
        rcases p with ⟨cs, us⟩
        cases hc : cacherGetSummonerId store n with
        | none => simp [hc] at h
        | some id => by_cases hid : id = "" <;> simp [hc, hid] at h
    · have hnf : containsHash n = false := by
        cases hb : containsHash n
        · rfl
        · exact absurd hb hn
      simp only [validatePartition, hnf, Bool.false_eq_true, if_false] at h
      cases h
      exact ⟨n, rfl⟩

/-- The champion build only ever fails with an unexpected-keyword
`TypeError` or with the `ValueError` of a rejected release_date string. -/
theorem buildChampions_error_form (raw : List RawChampion) (e : Err)
    (h : buildChampions raw = .error e) :
    (∃ kw, e = .typeError kw) ∨ e = .valueError := by
  cases raw with
  | nil => simp [buildChampions, exceptMapList] at h
  | cons c rest =>
    simp only [buildChampions, exceptMapList, buildChampion_eq] at h
    cases h
    rcases c.skins with _ | ⟨sk, sks⟩
    · rcases c.spells with _ | ⟨sp, sps⟩
      · exact .inl ⟨"partype", rfl⟩
      · exact .inl ⟨"cooldown_burn_float", rfl⟩
    · show (∃ kw, skinCallErr sk = .typeError kw) ∨ skinCallErr sk = .valueError
      rcases h : sk.release_date with _ | rd
      · exact .inl ⟨"champion_id", by simp [skinCallErr, h]⟩
      · cases hio : rd.isoOk
        · exact .inr (by simp [skinCallErr, h, hio])
        · exact .inl ⟨"champion_id", by simp [skinCallErr, h, hio]⟩

/-- With both catalogs already populated the catalog phase only reads them. -/
theorem catalogPhase_cached (store : Cacher) (pp : PageProps)
    (hs : store.seasons ≠ []) (hc : store.champs ≠ []) :
    catalogPhase store pp =
      (none, store, [Event.storeGetAllSeasons, Event.storeGetAllChamps]) := by
  have hs' : store.seasons.isEmpty = false := by
    cases h : store.seasons
    · exact absurd rfl (h ▸ hs)
    · rfl
  have hc' : store.champs.isEmpty = false := by
    cases h : store.champs
    · exact absurd rfl (h ▸ hc)
    · rfl
  simp [catalogPhase, hs', hc']

/-- Catalog-phase failures are always champion-build failures: an
unexpected-keyword `TypeError` or a release_date `ValueError`. -/
theorem catalogPhase_error_form (store : Cacher) (pp : PageProps) (e : Err)
    (st : Cacher) (evs : List Event)
    (h : catalogPhase store pp = (some e, st, evs)) :
    (∃ kw, e = .typeError kw) ∨ e = .valueError := by
  unfold catalogPhase at h
  by_cases hch : store.champs.isEmpty = true
  · by_cases hse : store.seasons.isEmpty = true
    all_goals
      simp only [hse, hch, if_true, if_false, Bool.false_eq_true] at h
    all_goals
      rcases hb : get_all_champions store [] (some pp.championsById) with e' | cs
    all_goals rw [hb] at h
    all_goals simp only at h
    · cases h
      exact buildChampions_error_form _ _ hb
    · simp at h
    · cases h
      exact buildChampions_error_form _ _ hb
    · simp at h
  · by_cases hse : store.seasons.isEmpty = true <;>
      simp [hse, hch] at h

/-! Lemmas about whole `searchRun` executions. -/

/-- Any batch containing a name without the separator makes the whole run
fail with the malformed-query exception, leaving the store untouched, with
nothing but summoner-id store reads in the trace (in particular no network
access and no store write). -/
theorem searchRun_error_of_malformed (env : SearchEnv) (store : Cacher)
    (cur : Option String) (names : List String)
    (h : ∃ n ∈ names, containsHash n = false) :
    ∃ bad evs,
      searchRun env store cur names = (.error (.malformedQuery bad), store, evs)
      ∧ containsHash bad = false
      ∧ ∀ e ∈ evs, ∃ m, e = Event.storeGetSummonerId m := by
  rcases validatePartition_error_of_malformed store names h with
    ⟨bad, evs, heq, hbad, hevs⟩
  refine ⟨bad, evs, ?_, hbad, hevs⟩
  unfold searchRun
  rw [heq]

/-- No execution of the search body ever raises the multiple-results
exception: the guard at opgg.py line 502 requires a name without the
separator, which the validation loop has already rejected. -/
theorem searchRun_no_multipleResults (env : SearchEnv) (store : Cacher)
    (cur : Option String) (names : List String) (m : String) :
    (searchRun env store cur names).1 ≠ .error (.multipleResults m) := by
  unfold searchRun
  rcases hvp : validatePartition store names with ⟨res, evs0⟩
  cases res with
  | error e =>
    rcases validatePartition_error_form store names e evs0 hvp with ⟨bad, rfl⟩
    simp
  | ok p =>
    rcases p with ⟨cachedIds, uncached⟩
    have hall := validatePartition_ok_hash store names _ _ hvp
    simp only
    rcases hcp : catalogPhase store (env.fetchProps uncached) with ⟨oe, store1, evs2⟩
    cases oe with
    | some e =>
      rcases catalogPhase_error_form store _ e store1 evs2 hcp with ⟨kw, rfl⟩ | rfl
      · simp
      · simp
    | none =>
      simp only
      rcases hml : mainLoop env.api (env.fetchProps uncached).summoners
          store1 cur names with ⟨err, ss, store2, cur2, evs3⟩
      have hnm := mainLoop_no_multipleResults env.api
        (env.fetchProps uncached).summoners names store1 cur hall m
      rw [hml] at hnm
      cases err with
      | some e =>
        simp only
        intro hcontra
        apply hnm
        simpa using hcontra
      | none =>
        rcases cachedLoop env.api cachedIds with ⟨ss2, evs4⟩
        simp

/-- A successful run returns the main-loop results (one per input name, in
input order) followed by one summary-API result per cached id. -/
theorem searchRun_ok_shape (env : SearchEnv) (store : Cacher)
    (cur : Option String) (names : List String) (ss : List Summoner)
    (h : (searchRun env store cur names).1 = .ok ss) :
    ∃ ms, ss = ms ++ (cachedIdsOf store names).map (fun i => env.api (some i))
      ∧ ms.length = names.length := by
  unfold searchRun at h
  rcases hvp : validatePartition store names with ⟨res, evs0⟩
  rw [hvp] at h
  cases res with
  | error e => simp at h
  | ok p =>
    rcases p with ⟨cachedIds, uncached⟩
    have hall := validatePartition_ok_hash store names _ _ hvp
    have hclosed := validatePartition_closed store names hall
    rw [hvp] at hclosed
    have hcs : cachedIds = cachedIdsOf store names := by
      have := congrArg Prod.fst hclosed
      simp at this
      exact this.1
    simp only at h
    rcases hcp : catalogPhase store (env.fetchProps uncached) with ⟨oe, store1, evs2⟩
    rw [hcp] at h
    cases oe with
    | some e => simp at h
    | none =>
      simp only at h
      rcases hml : mainLoop env.api (env.fetchProps uncached).summoners
          store1 cur names with ⟨err, ms, store2, cur2, evs3⟩
      rw [hml] at h
      cases err with
      | some e => simp at h
      | none =>
        rw [cachedLoop_closed] at h
        simp only [Except.ok.injEq] at h
        refine ⟨ms, ?_, mainLoop_ok_length env.api _ names store1 cur ms store2 cur2 evs3 hml⟩
        rw [← h, hcs]

/-- With both catalogs cached and a scrape returning zero candidates, the
run succeeds, returning one summary-API result (for the unchanged current
summoner id) per input name followed by one per cached id, and it writes the
(name, id) pair returned by the summary API to the store for every input
name. -/
theorem searchRun_zero_candidates (env : SearchEnv) (store : Cacher)
    (cur : Option String) (names : List String)
    (hne : names ≠ [])
    (hall : ∀ n ∈ names, containsHash n = true)
    (hs : store.seasons ≠ []) (hc : store.champs ≠ [])
    (hfetch : (env.fetchProps (uncachedOf store names)).summoners = []) :
    (searchRun env store cur names).1 =
      .ok (names.map (fun _ => env.api cur)
        ++ (cachedIdsOf store names).map (fun i => env.api (some i)))
    ∧ Event.storeInsertSummoner (env.api cur).name (env.api cur).summoner_id
        ∈ (searchRun env store cur names).2.2 := by
  have hclosed := validatePartition_closed store names hall
  have hcat := catalogPhase_cached store (env.fetchProps (uncachedOf store names)) hs hc
  unfold searchRun
  rw [hclosed]
  simp only [hcat, hfetch, mainLoop_nil_cands, cachedLoop_closed]
  constructor
  · trivial
  · rcases names with _ | ⟨n, rest⟩
    · exact absurd rfl hne
    · simp

/-- The upsert is idempotent: writing the same pair again changes nothing. -/
theorem upsertId_idem (l : List (String × String)) (n i : String) :
    upsertId (upsertId l n i) n i = upsertId l n i := by
  induction l with
  | nil => simp [upsertId]
  | cons kv rest ih =>
    by_cases h : kv.1 = n
    · simp [upsertId, h]
    · simp [upsertId, h, ih]

/-- Every run over an all-well-formed batch fetches page props exactly for
the uncached names: that event is in the trace of every branch. -/
theorem searchRun_fetch_event (env : SearchEnv) (store : Cacher)
    (cur : Option String) (names : List String)
    (hall : ∀ n ∈ names, containsHash n = true) :
    Event.netPageProps (uncachedOf store names)
      ∈ (searchRun env store cur names).2.2 := by
  have hclosed := validatePartition_closed store names hall
  unfold searchRun
  rw [hclosed]
  simp only
  rcases hcp : catalogPhase store (env.fetchProps (uncachedOf store names)) with
    ⟨oe, store1, evs2⟩
  cases oe with
  | some e => simp
  | none =>
    simp only
    rcases hml : mainLoop env.api (env.fetchProps (uncachedOf store names)).summoners
        store1 cur names with ⟨err, ss, store2, cur2, evs3⟩
    cases err with
    | some e => simp
    | none =>
      rcases hcl : cachedLoop env.api (cachedIdsOf store names) with ⟨ss2, evs4⟩
      simp

/-! Claim theorems. -/

/-- C1 (counterexample): with one well-formed, uncached name and a scrape
returning zero candidates, `OPGG.search` does NOT fail with `NoResultsError`:
it returns a summoner built by the summary API for the stale current id, and
it DOES write a summoner-id record (the API-returned name/id pair) to the
store. -/
theorem c1_cex :
    (search envZero emptyCacher none ["a#1"]).1 =
      .ok (.single ⟨"X", "xid"⟩)
    ∧ (search envZero emptyCacher none ["a#1"]).2.1.summoner_ids =
      [("X", "xid")] :=
  ⟨rfl, rfl⟩

/-- C1 (amended): when the scrape returns zero candidates for the uncached
names of a non-empty, well-formed batch (catalogs already cached), `search`
does not raise `NoResultsError`: it succeeds, building one summoner per input
name by calling the summary API with the unchanged current summoner id
(plus one per cached id), and it writes the API-returned (name, id) pair to
the store for the input names; `NoResultsError` arises only for an empty
input batch. -/
theorem c1_amended (env : SearchEnv) (store : Cacher) (cur : Option String)
    (names : List String)
    (hne : names ≠ [])
    (hall : ∀ n ∈ names, containsHash n = true)
    (hs : store.seasons ≠ []) (hc : store.champs ≠ [])
    (hfetch : (env.fetchProps (uncachedOf store names)).summoners = []) :
    (∃ out, (search env store cur names).1 = .ok out)
    ∧ (searchRun env store cur names).1 =
        .ok (names.map (fun _ => env.api cur)
          ++ (cachedIdsOf store names).map (fun i => env.api (some i)))
    ∧ Event.storeInsertSummoner (env.api cur).name (env.api cur).summoner_id
        ∈ (searchRun env store cur names).2.2
    ∧ (search env store cur []).1 = .error .noResults := by
  obtain ⟨hres, hmem⟩ :=
    searchRun_zero_candidates env store cur names hne hall hs hc hfetch
  refine ⟨?_, hres, hmem, ?_⟩
  · unfold search
    rcases hsr : searchRun env store cur names with ⟨res, st, evs⟩
    rw [hsr] at hres
    simp only at hres
    subst hres
    rcases names with _ | ⟨n, rest⟩
    · exact absurd rfl hne
    · simp only [List.map_cons, List.cons_append]
      cases h' : List.map (fun _ => env.api cur) rest
          ++ (cachedIdsOf store (n :: rest)).map (fun i => env.api (some i)) with
      | nil => exact ⟨.single (env.api cur), rfl⟩
      | cons a l => exact ⟨.multiple (env.api cur :: a :: l), rfl⟩
  · have hclosed := validatePartition_closed store ([] : List String) (by simp)
    have hcat := catalogPhase_cached store (env.fetchProps (uncachedOf store []))
      hs hc
    unfold search searchRun
    rw [hclosed]
    simp only [cachedIdsOf, uncachedOf, List.filterMap_nil, List.filter_nil] at hcat ⊢
    rw [hcat]
    simp [mainLoop, cachedLoop]

/-- C1 (witness for the amended theorem at a concrete input). -/
theorem c1_wit :
    ∃ out, (search envZero storeCat none ["a#1"]).1 = .ok out :=
  (c1_amended envZero storeCat none ["a#1"] (by simp) (by decide)
    (by simp [storeCat]) (by simp [storeCat]) rfl).1

/-- C2 (counterexample): with the malformed name in second position the batch
fails with the malformed-query exception, but only AFTER a persistent-store
access (the summoner-id read for the well-formed first name), refuting
"before any persistent-store access occurs for every position". -/
theorem c2_cex :
    searchRun envZero emptyCacher none ["a#1", "bad"] =
      (.error (.malformedQuery "bad"), emptyCacher,
       [Event.storeGetSummonerId "a#1"]) :=
  rfl

/-- C2 (amended): a batch containing a name without the separator fails as a
whole with the malformed-query exception before any network access and
before any store write (the store is returned unchanged); the only effects
that may precede the failure are summoner-id store READS for the well-formed
names earlier in the batch. -/
theorem c2_amended (env : SearchEnv) (store : Cacher) (cur : Option String)
    (names : List String)
    (h : ∃ n ∈ names, containsHash n = false) :
    ∃ bad evs,
      searchRun env store cur names = (.error (.malformedQuery bad), store, evs)
      ∧ containsHash bad = false
      ∧ ∀ e ∈ evs, ∃ m, e = Event.storeGetSummonerId m :=
  searchRun_error_of_malformed env store cur names h

/-- C2 (witness for the amended theorem at a concrete input). -/
theorem c2_wit :
    ∃ bad evs,
      searchRun envZero emptyCacher none ["noSep"] =
        (.error (.malformedQuery bad), emptyCacher, evs)
      ∧ containsHash bad = false
      ∧ ∀ e ∈ evs, ∃ m, e = Event.storeGetSummonerId m :=
  c2_amended envZero emptyCacher none ["noSep"] ⟨"noSep", by simp, by decide⟩

/-- C3 (counterexample): querying "abc" (no tag) while the source holds
exactly one candidate named "abc" does not accept that candidate, as the
claim states: the batch fails with the malformed-query exception during
validation, before any fetch. -/
theorem c3_cex :
    (searchRun envAbc1 emptyCacher none ["abc"]).1 =
      .error (.malformedQuery "abc") :=
  rfl

/-- C3 (amended): (i) a tagged query against multiple candidates selects the
exact (name, tag) match — for the specification's example the query
"abc#EUW" resolves through id "2" — and keeps the previous summoner id when
no candidate matches exactly (query "abc#KR"); untagged queries never reach
disambiguation: they fail the whole batch with the malformed-query exception
at validation (so the ambiguous-without-tag case cannot arise); with exactly
one candidate that candidate's id is taken regardless of the queried tag. -/
theorem c3_amended (api : Option String → Summoner) (cur : Option String)
    (c : Candidate) (name : String) :
    (searchRun { fetchProps := fun _ => ppAbc2, api := api }
        emptyCacher cur ["abc#EUW"]).1 = .ok [api (some "2")]
    ∧ (searchRun { fetchProps := fun _ => ppAbc2, api := api }
        emptyCacher cur ["abc"]).1 = .error (.malformedQuery "abc")
    ∧ (searchRun { fetchProps := fun _ => ppAbc2, api := api }
        emptyCacher cur ["abc#KR"]).1 = .ok [api cur]
    ∧ resolveId [c] name cur = .ok (some c.summoner_id) :=
  ⟨rfl, rfl, rfl, rfl⟩

/-- C4 (counterexample): a batch pairing a well-formed sibling with an
unqualified name (which the source would match ambiguously) aborts as a
WHOLE with the malformed-query exception: no per-name ambiguity report, no
sibling resolution. -/
theorem c4_cex :
    (searchRun envAbc2 emptyCacher none ["a#1", "abc"]).1 =
      .error (.malformedQuery "abc") :=
  rfl

/-- C4 (amended): the multiple-results (ambiguity) exception of opgg.py line
503 is unreachable — no run ever raises it — because validation has already
rejected every name lacking the separator; such a batch aborts entirely with
the malformed-query exception, so there is no per-name ambiguity reporting
and no partial-batch success. -/
theorem c4_amended (env : SearchEnv) (store : Cacher) (cur : Option String)
    (names : List String) :
    (∀ m, (searchRun env store cur names).1 ≠ .error (.multipleResults m))
    ∧ ((∃ n ∈ names, containsHash n = false) →
        ∃ bad, (searchRun env store cur names).1 = .error (.malformedQuery bad)) := by
  refine ⟨fun m => searchRun_no_multipleResults env store cur names m, fun h => ?_⟩
  rcases searchRun_error_of_malformed env store cur names h with
    ⟨bad, evs, heq, _, _⟩
  exact ⟨bad, by rw [heq]⟩

/-- C4 (witness for the amended theorem at a concrete input). -/
theorem c4_wit :
    (∀ m, (searchRun envAbc2 emptyCacher none ["b#2", "abc"]).1 ≠
      .error (.multipleResults m))
    ∧ ∃ bad, (searchRun envAbc2 emptyCacher none ["b#2", "abc"]).1 =
      .error (.malformedQuery bad) :=
  ⟨(c4_amended envAbc2 emptyCacher none ["b#2", "abc"]).1,
   (c4_amended envAbc2 emptyCacher none ["b#2", "abc"]).2 ⟨"abc", by simp, by decide⟩⟩

/-- C5 (counterexample): for the specification's example — batch
["a#1","b#2","c#3"] with "b#2" a cache hit — the result holds FOUR
summoners, not three: the in-order slot of the cache-hit name is filled by a
summary-API call reusing the id resolved for "a#1" (a duplicate), and the
cached "b#2" result is appended at the END, so the output is neither
one-per-name nor in input order. -/
theorem c5_cex :
    (searchRun envAC storeB none ["a#1", "b#2", "c#3"]).1 =
      .ok [⟨"aid", "aid"⟩, ⟨"aid", "aid"⟩, ⟨"cid", "cid"⟩, ⟨"bid", "bid"⟩]
    ∧ [(⟨"aid", "aid"⟩ : Summoner), ⟨"aid", "aid"⟩, ⟨"cid", "cid"⟩,
        ⟨"bid", "bid"⟩].length ≠ ["a#1", "b#2", "c#3"].length :=
  ⟨rfl, by decide⟩

/-- C5 (amended): a successful batch returns the main-loop results — exactly
one per input name, in input order, every name (cache hits included) going
through the fetched-candidate resolution — followed by one additional
summary-API result per cached id appended at the end; cache hits are thus
duplicated rather than merged in place. -/
theorem c5_amended (env : SearchEnv) (store : Cacher) (cur : Option String)
    (names : List String) (ss : List Summoner)
    (h : (searchRun env store cur names).1 = .ok ss) :
    ∃ ms, ss = ms ++ (cachedIdsOf store names).map (fun i => env.api (some i))
      ∧ ms.length = names.length :=
  searchRun_ok_shape env store cur names ss h

/-- C5 (witness for the amended theorem at a concrete input). -/
theorem c5_wit :
    ∃ ms, [(⟨"aid", "aid"⟩ : Summoner), ⟨"aid", "aid"⟩, ⟨"cid", "cid"⟩,
        ⟨"bid", "bid"⟩] =
      ms ++ (cachedIdsOf storeB ["a#1", "b#2", "c#3"]).map
        (fun i => envAC.api (some i))
      ∧ ms.length = ["a#1", "b#2", "c#3"].length :=
  c5_amended envAC storeB none ["a#1", "b#2", "c#3"] _ rfl

/-- C6: replacing a populated catalog with the empty collection is a no-op —
after storing [c1, c2] a subsequent empty write leaves the catalog equal to
[c1, c2], for champions and seasons alike, and an empty write never changes
the store at all. -/
theorem c6_nondestructive_replace (store : Cacher) (c1 c2 : Champion)
    (s1 s2 : SeasonInfo) :
    (insert_all_champs (insert_all_champs store [c1, c2]) []).champs = [c1, c2]
    ∧ (insert_all_seasons (insert_all_seasons store [s1, s2]) []).seasons = [s1, s2]
    ∧ (∀ st : Cacher, insert_all_champs st [] = st)
    ∧ (∀ st : Cacher, insert_all_seasons st [] = st) :=
  ⟨rfl, rfl, fun _ => rfl, fun _ => rfl⟩

/-- C7 (counterexample): a name whose stored identifier is the empty string
has `resolve_summoner_id` return `some ""` — an identifier IS present — yet
the name is still passed to the fetch collaborator, because
`if cached_id:` at opgg.py line 443 treats the empty string as a miss. -/
theorem c7_cex :
    cacherGetSummonerId storeEmptyId "a#1" = some ""
    ∧ Event.netPageProps ["a#1"] ∈
        (searchRun envZero storeEmptyId none ["a#1"]).2.2 :=
  ⟨rfl, by decide⟩

/-- C7 (amended): for every well-formed batch the scrape is invoked exactly
on the uncached names (those whose cached id is absent or empty), and any
name with a present, NON-empty cached id is not among them. -/
theorem c7_amended (env : SearchEnv) (store : Cacher) (cur : Option String)
    (names : List String)
    (hall : ∀ n ∈ names, containsHash n = true) :
    Event.netPageProps (uncachedOf store names)
      ∈ (searchRun env store cur names).2.2
    ∧ ∀ n ∈ names, ∀ id, cacherGetSummonerId store n = some id → id ≠ "" →
        n ∉ uncachedOf store names := by
  refine ⟨searchRun_fetch_event env store cur names hall, ?_⟩
  intro n _ id hid hne hmem
  rw [uncachedOf, List.mem_filter] at hmem
  rcases hmem with ⟨_, hf⟩
  rw [truthyHit, hid] at hf
  simp [hne] at hf

/-- C7 (witness for the amended theorem at a concrete input). -/
theorem c7_wit :
    Event.netPageProps (uncachedOf storeB ["a#1", "b#2"])
      ∈ (searchRun envAC storeB none ["a#1", "b#2"]).2.2
    ∧ ∀ n ∈ ["a#1", "b#2"], ∀ id, cacherGetSummonerId storeB n = some id →
        id ≠ "" → n ∉ uncachedOf storeB ["a#1", "b#2"] :=
  c7_amended envAC storeB none ["a#1", "b#2"] (by decide)

/-- C8: recording the same (name, id) pair twice leaves the store in the
same observable state as recording it once. -/
theorem c8_record_idempotent (store : Cacher) (name id : String) :
    insert_summoner (insert_summoner store name id) name id =
      insert_summoner store name id := by
  simp [insert_summoner, upsertId_idem]

/-- C9 (counterexample): a non-empty payload whose first skin carries a
present release_date string that `datetime.fromisoformat` rejects raises
`ValueError` — the argument evaluation at utils.py line 232 runs before the
`Skin(...)` call can raise its unexpected-keyword `TypeError` — so the
claim's "raises a TypeError" does not hold for every non-empty payload. -/
theorem c9_cex :
    buildChampions [badDateRawChampion] = .error .valueError
    ∧ ¬ ∃ kw, buildChampions [badDateRawChampion] = .error (.typeError kw) := by
  refine ⟨rfl, ?_⟩
  rintro ⟨kw, h⟩
  rw [show buildChampions [badDateRawChampion] = .error .valueError from rfl] at h
  simp at h

/-- C9 (amended): every non-empty raw champion payload makes the
champion-building loop of `get_all_champions` raise — `ValueError` when the
first champion's first skin has a present release_date the parser rejects,
otherwise a `TypeError` for an unexpected constructor keyword (champion_id,
cooldown_burn_float or partype) — and a successful build can only ever
produce the empty list, so a non-empty `list[Champion]` from fetched data is
unreachable; in particular, whenever every present release_date parses, the
error is the keyword `TypeError`. -/
theorem c9_thm (raw : List RawChampion) :
    (∀ l, buildChampions raw = .ok l → l = [])
    ∧ (raw ≠ [] → ∃ e, buildChampions raw = .error e
        ∧ ((∃ kw, e = .typeError kw) ∨ e = .valueError))
    ∧ ((∀ c ∈ raw, ∀ sk ∈ c.skins, ∀ rd, sk.release_date = some rd →
          rd.isoOk = true) →
        raw ≠ [] → ∃ kw, buildChampions raw = .error (.typeError kw)) := by
  cases raw with
  | nil =>
    refine ⟨fun l hl => ?_, fun hne => absurd rfl hne,
      fun _ hne => absurd rfl hne⟩
    simp only [buildChampions, exceptMapList, Except.ok.injEq] at hl
    exact hl.symm
  | cons c rest =>
    refine ⟨fun l hl => ?_, fun _ => ?_, fun hiso _ => ?_⟩
    · simp [buildChampions, exceptMapList, buildChampion_eq] at hl
    · rcases hb : buildChampions (c :: rest) with e | l
      · exact ⟨e, rfl, buildChampions_error_form (c :: rest) e hb⟩
      · exfalso
        simp [buildChampions, exceptMapList, buildChampion_eq] at hb
    · have hskin : ∀ sk ∈ c.skins, skinCallErr sk = .typeError "champion_id" := by
        intro sk hsk
        unfold skinCallErr
        rcases hr : sk.release_date with _ | rd
        · rfl
        · simp [hiso c (by simp) sk hsk rd hr]
      refine ⟨(match c.skins with
        | sk :: _ => "champion_id"
        | [] =>
          match c.spells with
          | _ :: _ => "cooldown_burn_float"
          | [] => "partype"), ?_⟩
      simp only [buildChampions, exceptMapList, buildChampion_eq]
      rcases hs : c.skins with _ | ⟨sk, sks⟩
      · rcases c.spells with _ | _ <;> rfl
      · show Except.error (skinCallErr sk) =
            Except.error (Err.typeError "champion_id")
        rw [hskin sk (by rw [hs]; simp)]

/-- C9 (witness for the amended theorem at a concrete non-empty payload with
no release dates). -/
theorem c9_wit :
    ∃ kw, buildChampions [sampleRawChampion] = .error (.typeError kw) :=
  (c9_thm [sampleRawChampion]).2.2 (by simp [sampleRawChampion]) (by simp)

/-- C10: the return shape of `get_champion_by` and `get_season_by` depends
only on the match count: two or more matches yield the whole list, exactly
one match yields the bare object, and zero matches raise `IndexError` from
`result_set[0]`. -/
theorem c10_thm (seasons : List SeasonInfo) (champs : List Champion)
    (b b2 : By) (v v2 : PyVal) (curr : String)
    (rs : List SeasonInfo) (rs2 : List Champion) :
    (computeSeasonSet seasons b v = .ok rs →
      ((rs = [] → seasonSelect seasons b v = .error .indexError)
        ∧ (∀ x, rs = [x] → seasonSelect seasons b v = .ok (.one x))
        ∧ (rs.length > 1 → seasonSelect seasons b v = .ok (.many rs))))
    ∧ (computeChampSet champs b2 v2 curr = .ok rs2 →
      ((rs2 = [] → champSelect champs b2 v2 curr = .error .indexError)
        ∧ (∀ x, rs2 = [x] → champSelect champs b2 v2 curr = .ok (.one x))
        ∧ (rs2.length > 1 →
            champSelect champs b2 v2 curr = .ok (.many rs2)))) := by
  constructor
  · intro h
    refine ⟨?_, ?_, ?_⟩
    · rintro rfl
      simp [seasonSelect, h, shapeResult]
    · rintro x rfl
      simp [seasonSelect, h, shapeResult]
    · intro hlen
      simp [seasonSelect, h, shapeResult, hlen]
  · intro h
    refine ⟨?_, ?_, ?_⟩
    · rintro rfl
      simp [champSelect, h, shapeResult]
    · rintro x rfl
      simp [champSelect, h, shapeResult]
    · intro hlen
      simp [champSelect, h, shapeResult, hlen]

/-- C10 (witness at concrete inputs: an empty season catalog raises
`IndexError`, a single champion match returns the bare object). -/
theorem c10_wit :
    seasonSelect [] By.id (PyVal.vInt 1) = .error .indexError
    ∧ champSelect [sampleChampion] By.name (PyVal.vStr "Anivia") "" =
      .ok (.one sampleChampion) :=
  ⟨((c10_thm [] [sampleChampion] By.id By.name (PyVal.vInt 1)
      (PyVal.vStr "Anivia") "" [] [sampleChampion]).1 rfl).1 rfl,
   (((c10_thm [] [sampleChampion] By.id By.name (PyVal.vInt 1)
      (PyVal.vStr "Anivia") "" [] [sampleChampion]).2 rfl).2.1)
     sampleChampion rfl⟩
